import Mathlib

/-!
Shallow embedding of `src/interpreter/interpreter-assembler.cc` (the
code-generation core of a register-based bytecode interpreter) and proofs
about the semantics of the code it emits.

The source generates machine code through a backend of primitive operations
(loads, stores, word arithmetic, branches, tail calls).  We embed the
*runtime semantics* of the generated operations: machine words are `Nat`
values taken modulo `2^64` (the 64-bit pointer-size configuration,
`kPointerSize == 8`), 32-bit intermediates are taken modulo `2^32`, and
memory is a function from addresses to byte (or word) values.  The two
architecture-conditional compile-time choices in the source
(`V8_TARGET_LITTLE_ENDIAN` / `V8_TARGET_BIG_ENDIAN` and
`TargetSupportsUnalignedAccess`) are embedded as explicit `Bool`
parameters, so each theorem quantifies over all target configurations.
-/

namespace InterpreterAssembler

/-- `kPointerSize` from the source configuration: 8 bytes (64-bit target). -/
def kPointerSize : Nat := 8

/-- `kPointerSizeLog2`: log2 of the pointer size. -/
def kPointerSizeLog2 : Nat := 3

/-- `kBitsPerByte`. -/
def kBitsPerByte : Nat := 8

/-- Word size of the 64-bit target, as a modulus. -/
def wordMod : Nat := 2 ^ 64

/-- Modulus for 32-bit intermediate machine values. -/
def word32Mod : Nat := 2 ^ 32

/-- Backend primitive `IntPtrAdd`: full-word addition, wrapping modulo `2^64`. -/
def intPtrAdd (a b : Nat) : Nat := (a + b) % wordMod

/-- Backend primitive `WordShl`: full-word shift left, wrapping modulo `2^64`. -/
def wordShl (a n : Nat) : Nat := (a <<< n) % wordMod

/-- Backend primitive `WordOr`: full-word bitwise or. -/
def wordOr (a b : Nat) : Nat := a ||| b

/-- Backend primitive `Word32Shl`: 32-bit shift left, wrapping modulo `2^32`. -/
def word32Shl (a n : Nat) : Nat := (a <<< n) % word32Mod

/-- Backend primitive `Word32Or`: 32-bit bitwise or. -/
def word32Or (a b : Nat) : Nat := a ||| b

/-- Sign-extension of an 8-bit value to a 32-bit machine value: the result of
a `MachineType::Int8()` load of byte `b`. -/
def sext8to32 (b : Nat) : Nat := if b < 2 ^ 7 then b else b + (word32Mod - 2 ^ 8)

/-- Sign-extension of a 16-bit value to a 32-bit machine value: the result of
a `MachineType::Int16()` load of 16-bit pattern `v`. -/
def sext16to32 (v : Nat) : Nat := if v < 2 ^ 15 then v else v + (word32Mod - 2 ^ 16)

/-- Backend primitive `ChangeInt32ToInt64`: sign-extension of a 32-bit machine
value to a full 64-bit word. -/
def sext32to64 (v : Nat) : Nat := if v < 2 ^ 31 then v else v + (wordMod - word32Mod)

/-- Interpretation of a 64-bit machine word as a signed integer
(two's complement). -/
def toInt64 (w : Nat) : Int := if w < 2 ^ 63 then (w : Int) else (w : Int) - 2 ^ 64

/-- The 64-bit machine word representing a signed integer
(two's complement). -/
def wordOfInt (i : Int) : Nat := (i % (2 ^ 64 : Int)).toNat

/-- Semantics of the backend's direct unsigned 16-bit load
(`MachineType::Uint16()`) over byte memory `mem` at address `a`: the two
bytes at `a` and `a + 1` combined according to the target's byte order. -/
def loadU16 (isLE : Bool) (mem : Nat → Nat) (a : Nat) : Nat :=
  if isLE then mem a ||| (mem ((a + 1) % wordMod) <<< 8)
  else (mem a <<< 8) ||| mem ((a + 1) % wordMod)

/-- Semantics of the backend's direct signed 16-bit load
(`MachineType::Int16()`): the unsigned 16-bit load, sign-extended to a
32-bit machine value. -/
def loadI16 (isLE : Bool) (mem : Nat → Nat) (a : Nat) : Nat :=
  sext16to32 (loadU16 isLE mem a)

/-!  ## Operand decoding

The decoders read the current bytecode's operand bytes from the bytecode
buffer.  `mem` is the byte contents of the buffer, `off` the current
bytecode offset (`BytecodeOffset()`), and `opOff` the operand's byte offset
within the instruction (`Bytecodes::GetOperandOffset`, supplied by the
format catalog, an external collaborator). -/

/-- `InterpreterAssembler::BytecodeOperand`: unsigned 8-bit operand load. -/
def bytecodeOperand (mem : Nat → Nat) (off opOff : Nat) : Nat :=
  mem (intPtrAdd off opOff)

/-- `InterpreterAssembler::BytecodeOperandSignExtended`: signed 8-bit operand
load (`MachineType::Int8()`), then — since `kPointerSize == 8` —
`ChangeInt32ToInt64` to sign-extend to full pointer width. -/
def bytecodeOperandSignExtended (mem : Nat → Nat) (off opOff : Nat) : Nat :=
  sext32to64 (sext8to32 (mem (intPtrAdd off opOff)))

/-- `InterpreterAssembler::BytecodeOperandShort`: unsigned 16-bit operand.
With unaligned access support, a direct `Uint16` load; otherwise two
separate byte loads combined per the target byte order
(`WordOr (WordShl second kBitsPerByte) first` on little-endian,
`WordOr (WordShl first kBitsPerByte) second` on big-endian). -/
def bytecodeOperandShort (unalignedAccess isLE : Bool) (mem : Nat → Nat)
    (off opOff : Nat) : Nat :=
  if unalignedAccess then
    loadU16 isLE mem (intPtrAdd off opOff)
  else
    let firstByte := mem (intPtrAdd off opOff)
    let secondByte := mem (intPtrAdd off (opOff + 1))
    if isLE then wordOr (wordShl secondByte kBitsPerByte) firstByte
    else wordOr (wordShl firstByte kBitsPerByte) secondByte

/-- `InterpreterAssembler::BytecodeOperandShortSignExtended`: signed 16-bit
operand.  With unaligned access support, a direct `Int16` load; otherwise
the high-order byte is loaded signed (`Int8`), the low-order byte unsigned
(`Uint8`), combined by `Word32Shl`/`Word32Or`; the high/low byte offsets
depend on the target byte order.  Finally (`kPointerSize == 8`)
`ChangeInt32ToInt64` sign-extends to full pointer width. -/
def bytecodeOperandShortSignExtended (unalignedAccess isLE : Bool)
    (mem : Nat → Nat) (off opOff : Nat) : Nat :=
  let load :=
    if unalignedAccess then
      loadI16 isLE mem (intPtrAdd off opOff)
    else
      let hiByteOffset := if isLE then opOff + 1 else opOff
      let loByteOffset := if isLE then opOff else opOff + 1
      let hiByte := sext8to32 (mem (intPtrAdd off hiByteOffset))
      let loByte := mem (intPtrAdd off loByteOffset)
      word32Or (word32Shl hiByte kBitsPerByte) loByte
  sext32to64 load

/-- Operand sizes declared by the format catalog (`OperandSize`). -/
inductive OperandSize where
  | kByte
  | kShort
  | kNone
deriving DecidableEq

/-- Modelled from the spec: semantic operand kinds of the format catalog
(`OperandType` in the bytecode catalog, which is an external collaborator
not under `src/`): plain immediate, unsigned index, unsigned count, and
register reference. -/
inductive OperandKind where
  | imm
  | idx
  | count
  | reg
deriving DecidableEq

/-- Modelled from the spec: an operand type as declared by the format
catalog — a semantic kind together with an encoded width. -/
structure OperandType where
  kind : OperandKind
  size : OperandSize
deriving DecidableEq

/-- `Bytecodes::IsRegisterOperandType`, at the catalog interface. -/
def isRegisterOperandType (t : OperandType) : Bool :=
  t.kind = OperandKind.reg

/-- `Bytecodes::SizeOfOperand`, at the catalog interface. -/
def sizeOfOperand (t : OperandType) : OperandSize :=
  t.size

/-- `InterpreterAssembler::BytecodeOperandReg`: decode a register-reference
operand.  Register operands of byte width use the sign-extended byte
strategy, of short width the sign-extended short strategy; any other
combination is `UNREACHABLE` (embedded as `none`). -/
def bytecodeOperandReg (t : OperandType) (unalignedAccess isLE : Bool)
    (mem : Nat → Nat) (off opOff : Nat) : Option Nat :=
  if isRegisterOperandType t then
    match sizeOfOperand t with
    | OperandSize.kByte =>
        some (bytecodeOperandSignExtended mem off opOff)
    | OperandSize.kShort =>
        some (bytecodeOperandShortSignExtended unalignedAccess isLE mem off opOff)
    | OperandSize.kNone => none
  else none

/-!  ## Register frame addressing -/

/-- `InterpreterAssembler::RegisterFrameOffset`: `WordShl index kPointerSizeLog2`. -/
def registerFrameOffset (index : Nat) : Nat :=
  wordShl index kPointerSizeLog2

/-- `InterpreterAssembler::RegisterLocation`:
`IntPtrAdd registerFile (RegisterFrameOffset index)`. -/
def registerLocation (registerFile index : Nat) : Nat :=
  intPtrAdd registerFile (registerFrameOffset index)

/-- `InterpreterAssembler::NextRegister`: `IntPtrAdd index (-1)` — register
indexes are negative, so the next index is minus one.  `-1` as a machine
word is `2^64 - 1`. -/
def nextRegister (index : Nat) : Nat :=
  intPtrAdd index (wordMod - 1)

/-- The mathematical value of a byte reinterpreted as a signed 8-bit
integer (the spec's statement of the sign-extended byte decode). -/
def int8OfByte (b : Nat) : Int := if b < 2 ^ 7 then (b : Int) else (b : Int) - 2 ^ 8

/-!  ## Arithmetic helper lemmas -/

/-- Bitwise or of shifted high bits with disjoint low bits is addition. -/
theorem lor_shiftLeft_add {n a b : Nat} (hb : b < 2 ^ n) :
    (a <<< n) ||| b = 2 ^ n * a + b := by
  apply Nat.eq_of_testBit_eq
  intro j
  rw [Nat.testBit_lor, Nat.testBit_shiftLeft, Nat.testBit_mul_pow_two_add a hb j]
  by_cases h : j < n
  · have h2 : ¬ (j ≥ n) := by omega
    simp [h, h2]
  · have hj : j ≥ n := by omega
    have hbj : b < 2 ^ j := lt_of_lt_of_le hb (Nat.pow_le_pow_right (by norm_num) hj)
    simp [h, hj, Nat.testBit_lt_two_pow hbj]

/-- `Word32Shl` of a sign-extended byte by 8, in closed arithmetic form. -/
theorem word32Shl_sext8 {hi : Nat} (h : hi < 256) :
    word32Shl (sext8to32 hi) 8 =
      if hi < 128 then 2 ^ 8 * hi else 2 ^ 32 - 2 ^ 16 + 2 ^ 8 * hi := by
  unfold word32Shl sext8to32 word32Mod
  rw [Nat.shiftLeft_eq]
  split <;> split <;> omega

/-- The source's two-byte sign-extending combination
(`Word32Or (Word32Shl hiByte 8) loByte` with `hiByte` loaded signed) equals
the sign-extension of the combined 16-bit pattern. -/
theorem combineFallback {hi lo : Nat} (hhi : hi < 256) (hlo : lo < 256) :
    word32Or (word32Shl (sext8to32 hi) 8) lo = sext16to32 (2 ^ 8 * hi + lo) := by
  rw [word32Shl_sext8 hhi]
  unfold word32Or sext16to32 word32Mod
  by_cases h : hi < 128
  · rw [if_pos h, if_pos (by omega)]
    have h3 := lor_shiftLeft_add (n := 8) (a := hi) (b := lo) (by omega)
    rw [Nat.shiftLeft_eq, Nat.mul_comm] at h3
    omega
  · rw [if_neg h, if_neg (by omega)]
    have h2 : 2 ^ 32 - 2 ^ 16 + 2 ^ 8 * hi = (2 ^ 24 - 2 ^ 8 + hi) * 2 ^ 8 := by omega
    rw [h2]
    have h3 := lor_shiftLeft_add (n := 8) (a := 2 ^ 24 - 2 ^ 8 + hi) (b := lo) (by omega)
    rw [Nat.shiftLeft_eq] at h3
    omega

/-- The second byte's address used by the fallback path is the successor of
the operand's base address, in wrapping word arithmetic. -/
theorem secondByteAddr (off opOff : Nat) :
    intPtrAdd off (opOff + 1) = (intPtrAdd off opOff + 1) % wordMod := by
  unfold intPtrAdd wordMod
  omega

/-- Value of the direct unsigned 16-bit load in arithmetic form: low byte
plus shifted high byte, with high/low chosen by the byte order. -/
theorem loadU16_val {mem : Nat → Nat} {a : Nat} (isLE : Bool)
    (h0 : mem a < 256) (h1 : mem ((a + 1) % wordMod) < 256) :
    loadU16 isLE mem a =
      if isLE then 2 ^ 8 * mem ((a + 1) % wordMod) + mem a
      else 2 ^ 8 * mem a + mem ((a + 1) % wordMod) := by
  unfold loadU16
  cases isLE
  · simp only [Bool.false_eq_true, if_false]
    exact lor_shiftLeft_add h1
  · simp only [if_true]
    rw [Nat.lor_comm]
    exact lor_shiftLeft_add h0

/-- A shifted byte does not wrap at full word width. -/
theorem wordShl_byte {x : Nat} (h : x < 256) : wordShl x 8 = x <<< 8 := by
  unfold wordShl wordMod
  rw [Nat.shiftLeft_eq]
  omega

/-- Value of the sign-extended single-byte decode, as a signed integer. -/
theorem byteDecodeVal (mem : Nat → Nat) (off opOff : Nat)
    (h : mem (intPtrAdd off opOff) < 256) :
    toInt64 (bytecodeOperandSignExtended mem off opOff)
      = int8OfByte (mem (intPtrAdd off opOff)) := by
  unfold bytecodeOperandSignExtended toInt64 sext32to64 sext8to32 int8OfByte wordMod word32Mod
  split_ifs <;> omega

/-- A concrete bytecode buffer used to instantiate theorems with hypotheses
at explicit inputs. -/
def testMem : Nat → Nat := fun a =>
  if a = 5 then 171 else if a = 6 then 205 else
  if a = 7 then 255 else if a = 8 then 127 else 0

/-- C1: for every operand position with a declared 2-byte width and every
pair of input bytes, the two-separate-byte combination fallback (used when
the target lacks unaligned 16-bit loads) decodes to the same word value as
a single direct 16-bit load, for both `BytecodeOperandShort` (unsigned)
and `BytecodeOperandShortSignExtended` (signed), on either byte order. -/
theorem shortDecode_fallback_eq_direct (isLE : Bool) (mem : Nat → Nat) (off opOff : Nat)
    (h0 : mem (intPtrAdd off opOff) < 256)
    (h1 : mem ((intPtrAdd off opOff + 1) % wordMod) < 256) :
    bytecodeOperandShort false isLE mem off opOff
      = bytecodeOperandShort true isLE mem off opOff ∧
    bytecodeOperandShortSignExtended false isLE mem off opOff
      = bytecodeOperandShortSignExtended true isLE mem off opOff := by
  have haddr := secondByteAddr off opOff
  unfold bytecodeOperandShort bytecodeOperandShortSignExtended loadI16 kBitsPerByte wordOr
  cases isLE
  · simp only [Bool.false_eq_true, if_false, if_true]
    rw [loadU16_val false h0 h1, haddr]
    simp only [Bool.false_eq_true, if_false]
    constructor
    · rw [wordShl_byte h0, lor_shiftLeft_add h1]
    · rw [combineFallback h0 h1]
  · simp only [if_true]
    rw [loadU16_val true h0 h1, haddr]
    simp only [if_true]
    constructor
    · rw [wordShl_byte h1, lor_shiftLeft_add h0]
      simp only [ite_self]
    · rw [combineFallback h1 h0]
      simp only [ite_self]

/-- C1 witness: the equivalence holds at the concrete buffer `testMem`,
offset 2, operand offset 3 (bytes `171` and `205`). -/
theorem shortDecode_fallback_eq_direct_witness :
    bytecodeOperandShort false true testMem 2 3
      = bytecodeOperandShort true true testMem 2 3 ∧
    bytecodeOperandShortSignExtended false true testMem 2 3
      = bytecodeOperandShortSignExtended true true testMem 2 3 :=
  shortDecode_fallback_eq_direct true testMem 2 3 (by decide) (by decide)

/-- C2: every signed single-byte operand decodes, via
`BytecodeOperandSignExtended`, to the operand byte reinterpreted as a
signed 8-bit integer widened to full word width; in particular byte `0xFF`
decodes to `-1` and byte `0x7F` decodes to `127`. -/
theorem signExtendedByteDecode (mem : Nat → Nat) (off opOff : Nat)
    (h : mem (intPtrAdd off opOff) < 256) :
    toInt64 (bytecodeOperandSignExtended mem off opOff)
      = int8OfByte (mem (intPtrAdd off opOff)) ∧
    (mem (intPtrAdd off opOff) = 255 →
      toInt64 (bytecodeOperandSignExtended mem off opOff) = -1) ∧
    (mem (intPtrAdd off opOff) = 127 →
      toInt64 (bytecodeOperandSignExtended mem off opOff) = 127) := by
  have hmain := byteDecodeVal mem off opOff h
  refine ⟨hmain, ?_, ?_⟩ <;> intro hb <;> rw [hmain, hb] <;> decide

/-- C2 witness: at `testMem`, offset 3, operand offset 4 the operand byte is
`0xFF` and decodes to `-1`. -/
theorem signExtendedByteDecode_witness :
    toInt64 (bytecodeOperandSignExtended testMem 3 4) = -1 :=
  (signExtendedByteDecode testMem 3 4 (by decide)).2.1 (by decide)

/-- C7: a register-reference operand of either declared width is decoded by
`BytecodeOperandReg` through the corresponding sign-extended strategy
(`BytecodeOperandSignExtended` for bytes,
`BytecodeOperandShortSignExtended` for 2-byte words). -/
theorem regOperand_usesSignExtended (t : OperandType) (u isLE : Bool)
    (mem : Nat → Nat) (off opOff : Nat) (h : isRegisterOperandType t = true) :
    (sizeOfOperand t = OperandSize.kByte →
      bytecodeOperandReg t u isLE mem off opOff
        = some (bytecodeOperandSignExtended mem off opOff)) ∧
    (sizeOfOperand t = OperandSize.kShort →
      bytecodeOperandReg t u isLE mem off opOff
        = some (bytecodeOperandShortSignExtended u isLE mem off opOff)) := by
  unfold bytecodeOperandReg
  simp only [h, if_true]
  constructor <;> intro hs <;> rw [hs]

/-- C7 witness: a byte-width register operand at a concrete input decodes
via the sign-extended byte strategy. -/
theorem regOperand_usesSignExtended_witness :
    bytecodeOperandReg ⟨OperandKind.reg, OperandSize.kByte⟩ true true testMem 0 5
      = some (bytecodeOperandSignExtended testMem 0 5) :=
  (regOperand_usesSignExtended ⟨OperandKind.reg, OperandSize.kByte⟩ true true
    testMem 0 5 (by decide)).1 (by decide)

/-- C8: the computed register address is `frame_base + index * word_size`
and the next-register computation returns `index - 1`, as pure functions of
the signed register index in two's-complement word representation. -/
theorem registerIndexArithmetic (base : Nat) (i : Int) :
    registerLocation base (wordOfInt i) = wordOfInt ((base : Int) + i * 8) ∧
    nextRegister (wordOfInt i) = wordOfInt (i - 1) := by
  unfold registerLocation registerFrameOffset nextRegister intPtrAdd wordShl wordOfInt wordMod kPointerSizeLog2
  rw [Nat.shiftLeft_eq]
  constructor <;> omega

/-!  ## Interpreter state and the call / dispatch protocol

The remaining operations are stateful: the assembler threads the
accumulator, context and dispatch-table values through the generated code
and reads/writes the register frame.  `AsmState` is the runtime state of
one executing handler: the three threaded values, the incoming dispatch
parameters (register-file pointer, bytecode offset, bytecode-array
pointer), the register-frame memory (indexed by byte offset from the
register-file pointer), the byte contents of the bytecode buffer, a global
word memory (dispatch-table entries, the stack-limit cell, the runtime
function table), the native stack pointer, and an abort marker.  Tracing
hooks (`FLAG_trace_ignition`) are omitted: per the spec they are purely
observational and never affect control flow or data values. -/

structure AsmState where
  accumulator : Nat
  context : Nat
  dispatchTable : Nat
  registerFile : Nat
  bytecodeOffset : Nat
  bytecodeArray : Nat
  bytecodeMem : Nat → Nat
  frame : Int → Nat
  globalMem : Nat → Nat
  sp : Nat
  abortReason : Option Nat

/-- Modelled from the spec: byte offset, from the register-file base
pointer, of the reserved frame slot holding the saved bytecode offset
(`InterpreterFrameConstants::kBytecodeOffsetFromRegisterPointer`;
`frames.h` is not under `src/`). -/
def kBytecodeOffsetFromRegisterPointer : Int := 16

/-- Modelled from the spec: byte offset of the reserved frame slot holding
the saved dispatch-table pointer
(`InterpreterFrameConstants::kDispatchTableFromRegisterPointer`;
`frames.h` is not under `src/`). -/
def kDispatchTableFromRegisterPointer : Int := 24

/-- Modelled from the spec: byte offset of the reserved frame slot holding
the current function reference
(`InterpreterFrameConstants::kFunctionFromRegisterPointer`; `frames.h` is
not under `src/`). -/
def kFunctionFromRegisterPointer : Int := 32

/-- Modelled from the spec: the operand index of the distinguished
current-context pseudo-register (`Register::current_context().ToOperand()`;
`bytecodes.h` is not under `src/`). -/
def currentContextOperand : Int := 5

/-- Frame byte offset of the current-context register: its operand shifted
by `kPointerSizeLog2` (`StoreRegister(value, Register)` in the source). -/
def kCurrentContextFrameOffset : Int := currentContextOperand * 8

/-- Pointwise update of the register-frame memory. -/
def updateFrame (f : Int → Nat) (o : Int) (v : Nat) : Int → Nat :=
  fun i => if i = o then v else f i

/-- `InterpreterAssembler::StoreRegister` (static-offset form): barrier-free
store into the register frame at a byte offset from the register-file
pointer. -/
def storeRegisterAt (s : AsmState) (o : Int) (v : Nat) : AsmState :=
  { s with frame := updateFrame s.frame o v }

/-- Modelled from the spec: small-integer tagging (`SmiTag`) on the 64-bit
target — the value is shifted into the upper word (the tagging primitive
lives in the macro assembler, not under `src/`). -/
def smiTag (n : Nat) : Nat := wordShl n 32

/-- Modelled from the spec: bailout-reason code `kUnexpectedStackPointer`
used by the call epilogue's debug consistency check. -/
def kUnexpectedStackPointer : Nat := 1

/-- `InterpreterAssembler::Abort`: invoke the runtime abort service with the
tagged reason; execution does not continue normally.  Embedded as recording
the reason. -/
def abortWith (s : AsmState) (reason : Nat) : AsmState :=
  { s with abortReason := some reason }

/-- The externally visible effect of a callee across a call-out: it may
rewrite the register-frame memory arbitrarily (for example a debugger
swapping the saved dispatch-table slot during the call), adjusts the
native stack pointer by `spEffect` (a well-behaved callee restores it),
and produces a result value. -/
structure CallEffect where
  frameEffect : (Int → Nat) → Int → Nat
  spEffect : Nat → Nat
  result : Nat

/-- Apply a callee's externally visible effect to the interpreter state. -/
def applyCall (eff : CallEffect) (s : AsmState) : AsmState :=
  { s with frame := eff.frameEffect s.frame, sp := eff.spEffect s.sp }

/-- `InterpreterAssembler::CallPrologue`: store the tagged bytecode offset
and the current dispatch-table pointer into their reserved frame slots;
with `FLAG_debug_code` set (and the check not disabled), snapshot the
native stack pointer for the epilogue's consistency check. -/
def callPrologue (debugCode disableStackCheck : Bool) (s : AsmState) :
    AsmState × Option Nat :=
  let s1 := storeRegisterAt s kBytecodeOffsetFromRegisterPointer (smiTag s.bytecodeOffset)
  let s2 := storeRegisterAt s1 kDispatchTableFromRegisterPointer s.dispatchTable
  (s2, if debugCode && !disableStackCheck then some s2.sp else none)

/-- `InterpreterAssembler::CallEpilogue`: with `FLAG_debug_code` set, verify
via `AbortIfWordNotEqual` that the native stack pointer is unchanged
(aborting with `kUnexpectedStackPointer` on mismatch); then restore the
dispatch-table pointer from its reserved frame slot, in case the debugger
swapped the dispatch table during the call. -/
def callEpilogue (debugCode disableStackCheck : Bool) (snapshot : Option Nat)
    (s : AsmState) : AsmState :=
  if debugCode && !disableStackCheck then
    match snapshot with
    | some sp0 =>
        if s.sp = sp0 then
          { s with dispatchTable := s.frame kDispatchTableFromRegisterPointer }
        else abortWith s kUnexpectedStackPointer
    | none => { s with dispatchTable := s.frame kDispatchTableFromRegisterPointer }
  else { s with dispatchTable := s.frame kDispatchTableFromRegisterPointer }

/-- Modelled from the spec: the backend's stub/runtime call primitive
invokes the `CallPrologue`/`CallEpilogue` hooks immediately around the
call (the hook mechanism lives in the code-emission backend,
`code-stub-assembler`, which is not under `src/`). -/
def callStub (debugCode disableStackCheck : Bool) (eff : CallEffect)
    (s : AsmState) : AsmState × Nat :=
  let p := callPrologue debugCode disableStackCheck s
  let s2 := applyCall eff p.1
  (callEpilogue debugCode disableStackCheck p.2 s2, eff.result)

/-- `InterpreterAssembler::CallJS`: invoke the push-args-and-call stub with
(context, argument count, first-argument address, target function); the
stub call runs through the prologue/epilogue pair. -/
def callJS (debugCode : Bool) (eff : CallEffect)
    (function context firstArg argCount : Nat) (s : AsmState) : AsmState × Nat :=
  callStub debugCode false eff s

/-- `InterpreterAssembler::CallConstruct`: invoke the
push-args-and-construct stub with (context, argument count, new-target,
constructor, first-argument address); the stub call runs through the
prologue/epilogue pair. -/
def callConstruct (debugCode : Bool) (eff : CallEffect)
    (constructor context newTarget firstArg argCount : Nat) (s : AsmState) :
    AsmState × Nat :=
  callStub debugCode false eff s

/-- Modelled from the spec: `sizeof(Runtime::Function)`, the stride of the
runtime function table (the runtime-function record layout is not under
`src/`). -/
def sizeofRuntimeFunction : Nat := 40

/-- Modelled from the spec: `offsetof(Runtime::Function, entry)`, the byte
offset of a runtime function's native entry point within its table record
(not under `src/`). -/
def runtimeEntryFieldOffset : Nat := 16

/-- `InterpreterAssembler::CallRuntimeN`: look up the runtime function's
native entry point from the runtime function table indexed by function id,
then invoke the C-entry stub with (context, argument count, first-argument
address, entry point, result size); the stub call runs through the
prologue/epilogue pair. -/
def callRuntimeN (debugCode : Bool) (eff : CallEffect)
    (functionTable functionId context firstArg argCount resultSize : Nat)
    (s : AsmState) : AsmState × Nat :=
  let functionOffset := (functionId * sizeofRuntimeFunction) % word32Mod
  let function := intPtrAdd functionTable functionOffset
  let functionEntry := s.globalMem (intPtrAdd function runtimeEntryFieldOffset)
  callStub debugCode false eff s

/-- The destination of a tail-call transfer: the handler entry point and
the interpreter-state argument tuple passed to it. -/
structure TailCallTarget where
  target : Nat
  args : List Nat

/-- `InterpreterAssembler::DispatchTo`: load the opcode byte at the new
offset, index the dispatch table with it to obtain the next handler's
entry point, and tail-call it passing the six-element interpreter state
tuple (accumulator, register-file pointer, new bytecode offset,
bytecode-array pointer, dispatch-table pointer, context). -/
def dispatchTo (s : AsmState) (newBytecodeOffset : Nat) : TailCallTarget :=
  let targetBytecode := s.bytecodeMem newBytecodeOffset
  let targetCodeObject :=
    s.globalMem (intPtrAdd s.dispatchTable (word32Shl targetBytecode kPointerSizeLog2))
  { target := targetCodeObject,
    args := [s.accumulator, s.registerFile, newBytecodeOffset,
             s.bytecodeArray, s.dispatchTable, s.context] }

/-- Modelled from the spec: the fixed exit-trampoline entry point
(`Builtins::InterpreterExitTrampoline`; the builtins table is not under
`src/`). -/
def kInterpreterExitTrampoline : Nat := 4096

/-- `InterpreterAssembler::InterpreterReturn`: tail-call the fixed
exit-trampoline entry point passing the same six-element interpreter state
tuple, at the current bytecode offset. -/
def interpreterReturn (s : AsmState) : TailCallTarget :=
  { target := kInterpreterExitTrampoline,
    args := [s.accumulator, s.registerFile, s.bytecodeOffset,
             s.bytecodeArray, s.dispatchTable, s.context] }

/-- `InterpreterAssembler::Advance`: `bytecode_offset + delta`, a pure
computation (both the static-int and dynamic-operand overloads are a full
word addition here; a negative delta arrives in two's-complement word
form). -/
def advanceBy (s : AsmState) (delta : Nat) : Nat :=
  intPtrAdd s.bytecodeOffset delta

/-- `InterpreterAssembler::Jump`: unconditional dispatch to
`Advance(delta)`. -/
def jump (s : AsmState) (delta : Nat) : TailCallTarget :=
  dispatchTo s (advanceBy s delta)

/-- `InterpreterAssembler::Dispatch`: dispatch to the next sequential
instruction at `Advance(Bytecodes::Size(bytecode_))`; the instruction size
comes from the format catalog. -/
def dispatch (instructionSize : Nat) (s : AsmState) : TailCallTarget :=
  dispatchTo s (advanceBy s instructionSize)

/-- `InterpreterAssembler::JumpConditional`: branch on the condition — if
it holds, dispatch to `Advance(delta)`; otherwise fall through via
`Dispatch()` to the next sequential instruction. -/
def jumpConditional (instructionSize : Nat) (condition : Bool) (delta : Nat)
    (s : AsmState) : TailCallTarget :=
  if condition then dispatchTo s (advanceBy s delta)
  else dispatch instructionSize s

/-- The runtime function id of the stack-guard service
(`Runtime::kStackGuard`), as an opaque id. -/
def kStackGuard : Nat := 7

/-- `InterpreterAssembler::StackCheck`: load the process-wide stack limit
from its external cell and compare the native stack pointer against it
(`UintPtrGreaterThanOrEqual(sp, stack_limit)`); on `sp ≥ limit` continue
with no side effect and no runtime call, otherwise call the stack-guard
runtime service once (through the call protocol) and continue.  Returns
the final state together with the list of runtime service ids invoked. -/
def stackCheck (debugCode : Bool) (guardEff : CallEffect)
    (stackLimitAddr : Nat) (s : AsmState) : AsmState × List Nat :=
  let stackLimit := s.globalMem stackLimitAddr
  if stackLimit ≤ s.sp then (s, [])
  else ((callStub debugCode false guardEff s).1, [kStackGuard])

/-- `InterpreterAssembler::SetContext`: store the new context value into
the current-context register via `StoreRegister`, then rebind the threaded
context variable. -/
def setContext (s : AsmState) (value : Nat) : AsmState :=
  let s1 := storeRegisterAt s kCurrentContextFrameOffset value
  { s1 with context := value }

/-- After a stub call whose callee restores the stack pointer, the threaded
dispatch-table value equals the (possibly swapped) contents of the
reserved dispatch-table frame slot, the frame is exactly the callee's
rewrite of the post-prologue frame, and no abort fired. -/
theorem callStub_dispatchTable (debugCode : Bool) (eff : CallEffect)
    (s : AsmState) (hsp : eff.spEffect s.sp = s.sp) :
    (callStub debugCode false eff s).1.dispatchTable
      = (callStub debugCode false eff s).1.frame kDispatchTableFromRegisterPointer ∧
    (callStub debugCode false eff s).1.frame
      = eff.frameEffect (callPrologue debugCode false s).1.frame ∧
    (callStub debugCode false eff s).1.abortReason = s.abortReason := by
  unfold callStub callPrologue callEpilogue applyCall storeRegisterAt
  cases debugCode
  · simp
  · simp [hsp]

/-- A concrete interpreter state used to instantiate theorems with
hypotheses at explicit inputs. -/
def testState : AsmState where
  accumulator := 1
  context := 2
  dispatchTable := 3
  registerFile := 4
  bytecodeOffset := 100
  bytecodeArray := 6
  bytecodeMem := fun _ => 0
  frame := fun _ => 0
  globalMem := fun _ => 0
  sp := 1000
  abortReason := none

/-- A concrete callee effect that swaps the saved dispatch-table frame slot
during the call (a debugger attaching mid-call) and restores the stack
pointer. -/
def swapEff : CallEffect where
  frameEffect := fun f i => if i = kDispatchTableFromRegisterPointer then 777 else f i
  spEffect := fun x => x
  result := 9

/-- C3: after `CallJS`, `CallConstruct` or `CallRuntimeN` returns, the
dispatch-table pointer placed in the next dispatch's argument tuple, and
the pointer used for the next handler-table lookup, both equal whatever
value the reserved dispatch-table frame slot holds at return time —
including a value swapped in during the call — regardless of the table
pointer active before the call. -/
theorem dispatchTable_from_frame_slot (debugCode : Bool) (eff : CallEffect)
    (fn ctx fa ac ctor nt ftab fid rs : Nat) (s : AsmState) (off : Nat)
    (hsp : eff.spEffect s.sp = s.sp) :
    (∀ s', s' = (callJS debugCode eff fn ctx fa ac s).1 ∨
           s' = (callConstruct debugCode eff ctor ctx nt fa ac s).1 ∨
           s' = (callRuntimeN debugCode eff ftab fid ctx fa ac rs s).1 →
      (dispatchTo s' off).args.get? 4
          = some (s'.frame kDispatchTableFromRegisterPointer) ∧
      (dispatchTo s' off).target
          = s'.globalMem (intPtrAdd (s'.frame kDispatchTableFromRegisterPointer)
              (word32Shl (s'.bytecodeMem off) kPointerSizeLog2))) := by
  have hmain := callStub_dispatchTable debugCode eff s hsp
  intro s' hs'
  have hdt : s'.dispatchTable = s'.frame kDispatchTableFromRegisterPointer := by
    rcases hs' with h | h | h <;> rw [h] <;> exact hmain.1
  constructor
  · show some s'.dispatchTable = _
    rw [hdt]
  · show s'.globalMem (intPtrAdd s'.dispatchTable _) = _
    rw [hdt]

/-- C3 witness: with a debugger swapping the saved slot to `777` during a
`CallRuntimeN` from `testState`, the next dispatch carries `777`. -/
theorem dispatchTable_from_frame_slot_witness :
    (dispatchTo (callRuntimeN true swapEff 0 0 2 0 0 1 testState).1 0).args.get? 4
      = some ((callRuntimeN true swapEff 0 0 2 0 0 1 testState).1.frame
                kDispatchTableFromRegisterPointer) :=
  (dispatchTable_from_frame_slot true swapEff 0 2 0 0 0 0 0 0 1 testState 0 rfl
    (callRuntimeN true swapEff 0 0 2 0 0 1 testState).1 (Or.inr (Or.inr rfl))).1

/-- C4: each of `CallJS`, `CallConstruct` and `CallRuntimeN` wraps its call
in the prologue/epilogue pair: the prologue stores the tagged bytecode
offset and the dispatch-table pointer into their reserved frame slots (and
in a debug build snapshots the stack pointer); after the call returns the
epilogue runs — the debug stack-pointer check, which aborts on mismatch,
then the dispatch-table reload from the frame slot. -/
theorem callsWrapPrologueEpilogue (debugCode : Bool) (eff : CallEffect)
    (fn ctx fa ac ctor nt ftab fid rs : Nat) (s : AsmState) :
    callJS debugCode eff fn ctx fa ac s
      = (callEpilogue debugCode false (callPrologue debugCode false s).2
          (applyCall eff (callPrologue debugCode false s).1), eff.result) ∧
    callConstruct debugCode eff ctor ctx nt fa ac s
      = (callEpilogue debugCode false (callPrologue debugCode false s).2
          (applyCall eff (callPrologue debugCode false s).1), eff.result) ∧
    callRuntimeN debugCode eff ftab fid ctx fa ac rs s
      = (callEpilogue debugCode false (callPrologue debugCode false s).2
          (applyCall eff (callPrologue debugCode false s).1), eff.result) ∧
    (callPrologue debugCode false s).1.frame kBytecodeOffsetFromRegisterPointer
      = smiTag s.bytecodeOffset ∧
    (callPrologue debugCode false s).1.frame kDispatchTableFromRegisterPointer
      = s.dispatchTable ∧
    (callPrologue debugCode false s).2 = (if debugCode then some s.sp else none) ∧
    (∀ s2 : AsmState, debugCode = true → s2.sp ≠ s.sp →
      (callEpilogue debugCode false (callPrologue debugCode false s).2 s2).abortReason
        = some kUnexpectedStackPointer) ∧
    (∀ s2 : AsmState, (debugCode = true → s2.sp = s.sp) →
      (callEpilogue debugCode false (callPrologue debugCode false s).2 s2).dispatchTable
        = s2.frame kDispatchTableFromRegisterPointer) := by
  refine ⟨rfl, rfl, rfl, ?_, ?_, ?_, ?_, ?_⟩
  · unfold callPrologue storeRegisterAt updateFrame kBytecodeOffsetFromRegisterPointer kDispatchTableFromRegisterPointer
    simp
  · unfold callPrologue storeRegisterAt updateFrame
    simp
  · unfold callPrologue storeRegisterAt
    cases debugCode <;> simp
  · intro s2 hdbg hne
    subst hdbg
    unfold callPrologue callEpilogue storeRegisterAt abortWith
    simp [hne]
  · intro s2 hsp
    unfold callPrologue callEpilogue storeRegisterAt
    cases debugCode
    · simp
    · simp [hsp rfl]

/-- C4 witness: from `testState` in a debug build, the prologue stores the
tagged offset `100` and table `3`; a callee returning with a changed stack
pointer makes the epilogue abort with `kUnexpectedStackPointer`. -/
theorem callsWrapPrologueEpilogue_witness :
    (callPrologue true false testState).1.frame kBytecodeOffsetFromRegisterPointer
      = smiTag 100 ∧
    (callEpilogue true false (callPrologue true false testState).2
        (storeRegisterAt { testState with sp := 999 } 0 0)).abortReason
      = some kUnexpectedStackPointer :=
  ⟨(callsWrapPrologueEpilogue true swapEff 0 0 0 0 0 0 0 0 0 testState).2.2.2.1,
   (callsWrapPrologueEpilogue true swapEff 0 0 0 0 0 0 0 0 0 testState).2.2.2.2.2.2.1
     (storeRegisterAt { testState with sp := 999 } 0 0) rfl (by decide)⟩

/-- C5: every tail-call dispatch (`DispatchTo`) and the terminal return
(`InterpreterReturn`) passes exactly six values in the fixed order:
accumulator, register-file pointer, bytecode offset, bytecode-array
pointer, dispatch-table pointer, context. -/
theorem interpreterStateTuple (s : AsmState) (off : Nat) :
    (dispatchTo s off).args
      = [s.accumulator, s.registerFile, off, s.bytecodeArray,
         s.dispatchTable, s.context] ∧
    (interpreterReturn s).args
      = [s.accumulator, s.registerFile, s.bytecodeOffset, s.bytecodeArray,
         s.dispatchTable, s.context] ∧
    (dispatchTo s off).args.length = 6 ∧
    (interpreterReturn s).args.length = 6 ∧
    (interpreterReturn s).args = (dispatchTo s s.bytecodeOffset).args :=
  ⟨rfl, rfl, rfl, rfl, rfl⟩

/-- C6: `JumpConditional(condition, delta)` dispatches to
`Advance(delta) = bytecode_offset + delta` when the condition holds and to
the next sequential instruction `bytecode_offset + instruction_size` when
it does not; in particular with the condition false, delta 10, offset 100
and instruction size 3 it dispatches to offset 103, not 110. -/
theorem jumpConditionalTargets (instructionSize delta : Nat) (s : AsmState) :
    jumpConditional instructionSize true delta s
      = dispatchTo s (intPtrAdd s.bytecodeOffset delta) ∧
    jumpConditional instructionSize false delta s
      = dispatchTo s (intPtrAdd s.bytecodeOffset instructionSize) ∧
    (s.bytecodeOffset = 100 → instructionSize = 3 → delta = 10 →
      (jumpConditional instructionSize false delta s).args.get? 2 = some 103 ∧
      (jumpConditional instructionSize false delta s).args.get? 2 ≠ some 110) := by
  refine ⟨rfl, rfl, ?_⟩
  intro h1 h2 h3
  subst h2
  subst h3
  show (some (advanceBy s 3) = _) ∧ (some (advanceBy s 3) ≠ _)
  unfold advanceBy intPtrAdd wordMod
  rw [h1]
  constructor
  · norm_num
  · norm_num

/-- C6 witness: from `testState` (offset 100), `JumpConditional(false, 10)`
with instruction size 3 dispatches to offset 103. -/
theorem jumpConditionalTargets_witness :
    (jumpConditional 3 false 10 testState).args.get? 2 = some 103 :=
  ((jumpConditionalTargets 3 10 testState).2.2 rfl rfl rfl).1

/-- C9: `StackCheck` with the stack pointer strictly below the stack limit
performs exactly one runtime call (the stack-guard service) before
continuing; with the stack pointer at or above the limit it performs zero
runtime calls and leaves the state untouched. -/
theorem stackCheckRuntimeCalls (debugCode : Bool) (guardEff : CallEffect)
    (stackLimitAddr : Nat) (s : AsmState) :
    (s.sp < s.globalMem stackLimitAddr →
      (stackCheck debugCode guardEff stackLimitAddr s).2 = [kStackGuard]) ∧
    (s.globalMem stackLimitAddr ≤ s.sp →
      (stackCheck debugCode guardEff stackLimitAddr s).2 = [] ∧
      (stackCheck debugCode guardEff stackLimitAddr s).1 = s) := by
  constructor
  · intro h
    unfold stackCheck
    rw [if_neg (by omega)]
  · intro h
    unfold stackCheck
    rw [if_pos h]
    exact ⟨rfl, rfl⟩

/-- C9 witness: at `testState` the stack pointer (1000) is above the limit
(0), so `StackCheck` makes zero runtime calls and has no effect. -/
theorem stackCheckRuntimeCalls_witness :
    (stackCheck false swapEff 0 testState).2 = [] ∧
    (stackCheck false swapEff 0 testState).1 = testState :=
  (stackCheckRuntimeCalls false swapEff 0 testState).2 (by decide)

/-- C10: `SetContext` writes the new context value both into the
current-context register frame slot and into the threaded context
variable — so the slot equals the context value passed to the next
dispatch — and modifies no other interpreter-state component. -/
theorem setContextEffect (s : AsmState) (value off : Nat) :
    (setContext s value).context = value ∧
    (setContext s value).frame kCurrentContextFrameOffset = value ∧
    (∀ o : Int, o ≠ kCurrentContextFrameOffset →
      (setContext s value).frame o = s.frame o) ∧
    (setContext s value).accumulator = s.accumulator ∧
    (setContext s value).dispatchTable = s.dispatchTable ∧
    (setContext s value).bytecodeOffset = s.bytecodeOffset ∧
    (setContext s value).sp = s.sp ∧
    (dispatchTo (setContext s value) off).args.get? 5
      = some ((setContext s value).frame kCurrentContextFrameOffset) := by
  unfold setContext storeRegisterAt updateFrame
  refine ⟨rfl, by simp, ?_, rfl, rfl, rfl, rfl, by simp [dispatchTo]⟩
  intro o ho
  simp [ho]

/-- C10 witness: setting context `7` on `testState` updates the
current-context slot and leaves an unrelated slot (offset 0) unchanged. -/
theorem setContextEffect_witness :
    (setContext testState 7).frame kCurrentContextFrameOffset = 7 ∧
    (setContext testState 7).frame 0 = testState.frame 0 :=
  ⟨(setContextEffect testState 7 0).2.1,
   (setContextEffect testState 7 0).2.2.1 0 (by decide)⟩

end InterpreterAssembler
